import Mathlib

/-!
Verification of the guarded SQL execution gateway (lab5 SQLite server).

The development embeds the statement classifier (utils/sql.js and its inline
copy in the server), the gateway handlers (handleGetSql, handlePostSql,
handleSeed, handleRequest), the execution-adapter normalization (runInsert)
and the store bootstrap (CREATE TABLE IF NOT EXISTS) as executable Lean
definitions, and proves the spec claims about them.

JS regular expressions over ASCII are modelled character by character:
`\w` is [A-Za-z0-9_], `\s` is the ECMAScript WhiteSpace / LineTerminator
set, `/i` is ASCII case folding, and `\b` is the usual word/non-word
boundary.
-/

/-- JS `\w` word character: [A-Za-z0-9_]. -/
def isWordChar (c : Char) : Bool :=
  (65 ≤ c.toNat && c.toNat ≤ 90) || (97 ≤ c.toNat && c.toNat ≤ 122) ||
  (48 ≤ c.toNat && c.toNat ≤ 57) || c.toNat = 95

/-- JS `\s` (ECMAScript WhiteSpace and LineTerminator code points). -/
def isJsSpace (c : Char) : Bool :=
  c.toNat = 32 || (9 ≤ c.toNat && c.toNat ≤ 13) || c.toNat = 160 ||
  c.toNat = 0x1680 || (0x2000 ≤ c.toNat && c.toNat ≤ 0x200a) ||
  c.toNat = 0x2028 || c.toNat = 0x2029 || c.toNat = 0x202f ||
  c.toNat = 0x205f || c.toNat = 0x3000 || c.toNat = 0xfeff

/-- ASCII lower-casing, the canonicalization a non-unicode `/i` regex applies
to ASCII letters. -/
def lowerChar (c : Char) : Char :=
  if 65 ≤ c.toNat && c.toNat ≤ 90 then Char.ofNat (c.toNat + 32) else c

/-- True when an optional neighbouring character is absent or a non-word
character, i.e. the position is a `\b` word boundary next to a word. -/
def noWordEdge : Option Char → Bool
  | none => true
  | some c => !isWordChar c

/-- Case-insensitive prefix test: the lower-case pattern `kw` matches the
start of `s` up to ASCII case. -/
def startsWithCI : List Char → List Char → Bool
  | [], _ => true
  | _ :: _, [] => false
  | k :: ks, c :: cs => (k = lowerChar c) && startsWithCI ks cs

/-- The pattern `kw` matches at the head of `s` and is followed by a word
boundary (end of string or a non-word character), as in `kw\b`. -/
def wordAtHead (kw : List Char) (s : List Char) : Bool :=
  startsWithCI kw s && noWordEdge (s.drop kw.length).head?

/-- Scan for `\bkw\b` through the string, tracking whether the previous
character was a word character (so the left boundary can be checked). -/
def containsWordAux (kw : List Char) : Bool → List Char → Bool
  | _, [] => false
  | prev, c :: cs =>
    if !prev && wordAtHead kw (c :: cs) then true
    else containsWordAux kw (isWordChar c) cs

/-- `/\bkw\b/i.test s` for a lower-case ASCII word `kw`. -/
def containsWord (kw : String) (s : String) : Bool :=
  containsWordAux kw.data false s.data

/-- The fixed denylist of mutating/administrative keywords of
`isForbidden` in utils/sql.js. -/
def denylist : List String :=
  ["update", "delete", "drop", "alter", "truncate",
   "grant", "revoke", "attach", "detach", "pragma"]

/-- utils/sql.js `isForbidden`:
`/\b(update|delete|drop|alter|truncate|grant|revoke|attach|detach|pragma)\b/i.test(sql)`. -/
def isForbidden (sql : String) : Bool :=
  denylist.any (fun kw => containsWord kw sql)

/-- utils/sql.js `isSelect`: `/^\s*select\b/i.test(sql)`. -/
def isSelect (sql : String) : Bool :=
  wordAtHead "select".data (sql.data.dropWhile isJsSpace)

/-- utils/sql.js `isInsert`: `/^\s*insert\b/i.test(sql)`. -/
def isInsert (sql : String) : Bool :=
  wordAtHead "insert".data (sql.data.dropWhile isJsSpace)

/-- utils/sql.js `touchesPatient`: `/\bpatient\b/i.test(sql)`. -/
def touchesPatient (sql : String) : Bool :=
  containsWord "patient" sql

/-- Declared intent of a statement: the transport channel it arrived on. -/
inductive Intent
  | read
  | write
deriving DecidableEq, Repr

/-- Result of classifying a statement (spec section 3). -/
inductive ClassificationResult
  | Forbidden
  | WrongIntent
  | OutOfScope
  | Approved
deriving DecidableEq, Repr

/-- Which start-of-statement keyword the declared intent requires:
`isSelect` on the read channel, `isInsert` on the write channel. -/
def intentKeywordOk (t : String) : Intent → Bool
  | .read => isSelect t
  | .write => isInsert t

/-- The classification pipeline shared by handleGetSql and handlePostSql:
the denylist check first, then the intent-shape check, then the table-scope
check, first match winning. -/
def classify (t : String) (i : Intent) : ClassificationResult :=
  if isForbidden t then .Forbidden
  else if !intentKeywordOk t i then .WrongIntent
  else if !touchesPatient t then .OutOfScope
  else .Approved

/-- Value of a hexadecimal digit character, if it is one. -/
def hexDigitVal (c : Char) : Option Nat :=
  if 48 ≤ c.toNat && c.toNat ≤ 57 then some (c.toNat - 48)
  else if 65 ≤ c.toNat && c.toNat ≤ 70 then some (c.toNat - 55)
  else if 97 ≤ c.toNat && c.toNat ≤ 102 then some (c.toNat - 87)
  else none

/-- A unit of a percent-encoded string: a literal character or a `%XX` byte. -/
inductive UriTok
  | raw (c : Char)
  | byte (b : Nat)
deriving DecidableEq, Repr

/-- Lex a percent-encoded string into literal characters and `%XX` bytes;
`none` on a malformed escape (as decodeURIComponent throws URIError). -/
def uriTokens : List Char → Option (List UriTok)
  | [] => some []
  | '%' :: rest =>
    match rest with
    | h1 :: h2 :: rest2 =>
      match hexDigitVal h1, hexDigitVal h2 with
      | some a, some b =>
        (uriTokens rest2).map (fun ts => UriTok.byte (16 * a + b) :: ts)
      | _, _ => none
    | _ => none
  | c :: rest => (uriTokens rest).map (fun ts => UriTok.raw c :: ts)

/-- True for a UTF-8 continuation byte 0x80..0xBF. -/
def isContByte (b : Nat) : Bool := 0x80 ≤ b && b ≤ 0xBF

/-- Decode the token stream: literal characters pass through, runs of `%XX`
bytes must form valid (strict, shortest-form) UTF-8, as decodeURIComponent
requires; `none` otherwise. -/
def decodeUriTokens : List UriTok → Option (List Char)
  | [] => some []
  | .raw c :: ts => (decodeUriTokens ts).map (fun cs => c :: cs)
  | .byte b :: ts =>
    if b < 0x80 then
      (decodeUriTokens ts).map (fun cs => Char.ofNat b :: cs)
    else if 0xC2 ≤ b && b ≤ 0xDF then
      match ts with
      | .byte b2 :: ts2 =>
        if isContByte b2 then
          (decodeUriTokens ts2).map
            (fun cs => Char.ofNat ((b - 0xC0) * 0x40 + (b2 - 0x80)) :: cs)
        else none
      | _ => none
    else if 0xE0 ≤ b && b ≤ 0xEF then
      match ts with
      | .byte b2 :: .byte b3 :: ts3 =>
        if isContByte b2 && isContByte b3
            && (b ≠ 0xE0 || 0xA0 ≤ b2) && (b ≠ 0xED || b2 ≤ 0x9F) then
          (decodeUriTokens ts3).map
            (fun cs =>
              Char.ofNat ((b - 0xE0) * 0x1000 + (b2 - 0x80) * 0x40 + (b3 - 0x80)) :: cs)
        else none
      | _ => none
    else if 0xF0 ≤ b && b ≤ 0xF4 then
      match ts with
      | .byte b2 :: .byte b3 :: .byte b4 :: ts4 =>
        if isContByte b2 && isContByte b3 && isContByte b4
            && (b ≠ 0xF0 || 0x90 ≤ b2) && (b ≠ 0xF4 || b2 ≤ 0x8F) then
          (decodeUriTokens ts4).map
            (fun cs =>
              Char.ofNat ((b - 0xF0) * 0x40000 + (b2 - 0x80) * 0x1000
                + (b3 - 0x80) * 0x40 + (b4 - 0x80)) :: cs)
        else none
      | _ => none
    else none

/-- JS decodeURIComponent on a character list: `none` models a thrown
URIError. -/
def decodeURIComponentL (s : List Char) : Option (List Char) :=
  (uriTokens s).bind decodeUriTokens

/-- JS `str.split(sep)` for a one-character separator (keeps empty pieces). -/
def splitOnSep (sep : Char) : List Char → List (List Char)
  | [] => [[]]
  | c :: cs =>
    let r := splitOnSep sep cs
    if c = sep then [] :: r
    else
      match r with
      | [] => [[c]]
      | g :: gs => (c :: g) :: gs

/-- JS `parts.join(sep)` for a one-character separator. -/
def joinSep (sep : Char) : List (List Char) → List Char
  | [] => []
  | [x] => x
  | x :: xs => x ++ sep :: joinSep sep xs

example : decodeURIComponentL "drop%20table%20patient".data
    = some "drop table patient".data := by decide
example : decodeURIComponentL "bad%2".data = none := by decide
example : decodeURIComponentL "bad%zz".data = none := by decide
example : decodeURIComponentL "%C3%A9".data = some "é".data := by decide
example : decodeURIComponentL "%C3".data = none := by decide
example : (splitOnSep '/' "/api/v1/sql/x".data).filter (· ≠ [])
    = ["api".data, "v1".data, "sql".data, "x".data] := by decide

/-- Outcome of the GET /api/v1/sql handler up to the adapter call: either an
immediate JSON error response, or an invocation of runSelect on the sql. -/
inductive GAction
  | respond (status : Nat) (error : String)
  | execSelect (sql : String)
deriving DecidableEq, Repr

/-- Outcome of the POST /api/v1/sql handler up to the adapter call: either an
immediate JSON error response, or an invocation of runInsert on the sql. -/
inductive PAction
  | respond (status : Nat) (error : String)
  | execInsert (sql : String)
deriving DecidableEq, Repr

/-- The three-check chain of handleGetSql on the decoded statement text:
forbidden first, then the SELECT shape, then the patient scope. -/
def getChecks (sql : String) : GAction :=
  if isForbidden sql then .respond 403 "Forbidden statement."
  else if !isSelect sql then .respond 400 "GET only allows SELECT."
  else if !touchesPatient sql then .respond 400 "Query must reference \x27patient\x27."
  else .execSelect sql

/-- handleGetSql: split the pathname on `/`, drop empty segments, require at
least four segments, percent-decode everything after /api/v1/sql/, then run
the check chain. -/
def handleGetSql (pathname : String) : GAction :=
  let parts := (splitOnSep '/' pathname.data).filter (· ≠ [])
  if parts.length < 4 then .respond 400 "Missing SQL in path."
  else
    match decodeURIComponentL (joinSep '/' (parts.drop 3)) with
    | none => .respond 400 "Badly encoded SQL."
    | some sql => getChecks (String.mk sql)

/-- handlePostSql from the extracted `String(payload.query || "")` on: the
blank check (`!sql.trim()`), then forbidden, INSERT shape, patient scope. -/
def handlePostSql (q : String) : PAction :=
  if q.data.all isJsSpace then .respond 400 "Missing \x27query\x27 field."
  else if isForbidden q then .respond 403 "Forbidden statement."
  else if !isInsert q then .respond 400 "POST only allows INSERT."
  else if !touchesPatient q then .respond 400 "Query must reference \x27patient\x27."
  else .execInsert q

/-- A result row: an ordered mapping from column name to value. -/
def Row : Type := List (String × String)

instance : DecidableEq Row := by
  unfold Row
  infer_instance

/-- The raw report of the store for one executed write statement:
`this.changes` and `this.lastID` of the sqlite3 run callback; `lastID = 0`
means no auto-increment key was assigned. -/
structure RunResult where
  changes : Nat
  lastID : Nat
deriving DecidableEq, Repr

/-- The write summary the gateway reports to the client. -/
structure InsertReport where
  affectedRows : Nat
  insertId : Option Nat
deriving DecidableEq, Repr

/-- runInsert normalization: `affectedRows: this.changes || 0` and
`insertId: this.lastID || null`. -/
def normalizeInsert (r : RunResult) : InsertReport :=
  { affectedRows := if r.changes = 0 then 0 else r.changes,
    insertId := if r.lastID = 0 then none else some r.lastID }

/-- Body of a JSON response of the gateway. -/
inductive Body
  | err (msg : String)
  | rows (rs : List Row)
  | okInsert (rep : InsertReport)
  | okSeed (message : String) (inserted : Nat)
  | plain (txt : String)
deriving DecidableEq

/-- An HTTP response: status code and JSON (or text) body. -/
structure Response where
  status : Nat
  body : Body
deriving DecidableEq

/-- One row of the patient table. -/
structure PatientRow where
  patientid : Nat
  name : String
  dateOfBirth : Option String
deriving DecidableEq, Repr

/-- The patient table: its rows and the auto-increment counter. -/
structure Table where
  rows : List PatientRow
  seq : Nat
deriving DecidableEq, Repr

/-- The SQLite database: named tables. -/
structure Store where
  tables : List (String × Table)
deriving DecidableEq, Repr

/-- Whether a table of that name exists. -/
def hasTable (s : Store) (name : String) : Bool :=
  s.tables.any (fun p => p.1 == name)

/-- How many tables of that name exist (a duplicate would make this exceed 1). -/
def countTable (s : Store) (name : String) : Nat :=
  (s.tables.filter (fun p => p.1 == name)).length

/-- Look up a table by name. -/
def getTable (s : Store) (name : String) : Option Table :=
  (s.tables.find? (fun p => p.1 == name)).map Prod.snd

/-- Replace the table of that name. -/
def setTable (s : Store) (name : String) (t : Table) : Store :=
  ⟨s.tables.map (fun p => if p.1 == name then (p.1, t) else p)⟩

/-- `CREATE TABLE IF NOT EXISTS patient (...)`: creates the empty patient
table when absent, otherwise does nothing; never an error. -/
def createPatientIfAbsent (s : Store) : Store :=
  if hasTable s "patient" then s else ⟨s.tables ++ [("patient", ⟨[], 0⟩)]⟩

/-- bootstrap: run the create-if-absent statement at startup. -/
def bootstrap (s : Store) : Store := createPatientIfAbsent s

/-- ensureTableExists: the same create-if-absent statement, run by the
adapter before each runSelect / runInsert. -/
def ensureTableExists (s : Store) : Store := createPatientIfAbsent s

/-- The full GET request cycle against a store: the handler decision, then on
approval ensureTableExists followed by the read (`execRows` stands for the
store evaluating the SELECT; a SELECT changes no rows). -/
def runGetStore (execRows : Store → String → List Row) (s : Store)
    (pathname : String) : Response × Store :=
  match handleGetSql pathname with
  | .respond st e => (⟨st, .err e⟩, s)
  | .execSelect sql =>
    let s2 := ensureTableExists s
    (⟨200, .rows (execRows s2 sql)⟩, s2)

/-- The full POST /api/v1/sql cycle: the handler decision, then on approval
runInsert, whose store report (`exec`) is normalized into the 200 body. -/
def runPost (exec : String → RunResult) (q : String) : Response :=
  match handlePostSql q with
  | .respond st e => ⟨st, .err e⟩
  | .execInsert sql => ⟨200, .okInsert (normalizeInsert (exec sql))⟩

example : handleGetSql "/api/v1/sql/drop%20table%20patient"
    = .respond 403 "Forbidden statement." := by decide
example : handleGetSql "/api/v1/sql/select%20*%20from%20patient"
    = .execSelect "select * from patient" := by decide
example : handleGetSql "/api/v1/sql" = .respond 400 "Missing SQL in path." := by decide
example : handleGetSql "/api/v1/sql/select%2" = .respond 400 "Badly encoded SQL." := by decide
example : handlePostSql "insert into patient (name) values (1)"
    = .execInsert "insert into patient (name) values (1)" := by decide
example : handlePostSql "  " = .respond 400 "Missing \x27query\x27 field." := by decide

/-- The fixed seed data of seed(): four (name, dateOfBirth) pairs. -/
def seedRows : List (String × String) :=
  [("Sara Brown", "1901-01-01 00:00:00"),
   ("John Smith", "1941-01-01 00:00:00"),
   ("Jack Ma", "1961-01-30 00:00:00"),
   ("Elon Musk", "1999-01-01 00:00:00")]

/-- JS `parts.join(sep)` on strings. -/
def joinWith (sep : String) : List String → String
  | [] => ""
  | [x] => x
  | x :: xs => x ++ sep ++ joinWith sep xs

/-- The bulk-insert text seed() builds:
`INSERT INTO patient (name, dateOfBirth) VALUES ` + placeholders + `;`. -/
def seedSql : String :=
  "INSERT INTO patient (name, dateOfBirth) VALUES "
    ++ joinWith ", " (seedRows.map (fun _ => "(?, ?)")) ++ ";"

/-- Insert one (name, dateOfBirth) row, assigning the next auto-increment
key. -/
def insertOne (t : Table) (nm dob : String) : Table :=
  ⟨t.rows ++ [⟨t.seq + 1, nm, some dob⟩], t.seq + 1⟩

/-- The store executing the seed bulk insert: all four rows are appended to
the patient table and `this.changes` reports 4; an error (none) when the
table is absent (seed does not run ensureTableExists). -/
def seedStore (s : Store) : Option (Store × Nat) :=
  match getTable s "patient" with
  | none => none
  | some t =>
    let t2 := seedRows.foldl (fun acc p => insertOne acc p.1 p.2) t
    some (setTable s "patient" t2, seedRows.length)

/-- handleSeed: run seed(), on success reply 200 with
`inserted: this.changes || rows.length`, on a store error reply 400. -/
def handleSeed (s : Store) : Response × Store :=
  match seedStore s with
  | none => (⟨400, .err "SQLITE_ERROR: no such table: patient"⟩, s)
  | some (s2, changes) =>
    (⟨200, .okSeed "Database seeded successfully."
        (if changes = 0 then seedRows.length else changes)⟩, s2)

/-- The dispatch decision of handleRequest for a (method, pathname) pair. -/
inductive Route
  | options
  | getSql (pathname : String)
  | postSql
  | postSeed
  | home
  | notFound
deriving DecidableEq, Repr

/-- JS `pathname.startsWith(p)`. -/
def jsStartsWith (s p : String) : Bool :=
  p.data.isPrefixOf s.data

/-- handleRequest routing: OPTIONS preflight, GET /api/v1/sql/..., POST
/api/v1/sql, POST /api/v1/seed, the GET / landing text, else the 404
not-found response. -/
def routeOf (method : String) (pathname : String) : Route :=
  if method = "OPTIONS" then .options
  else if method = "GET" && jsStartsWith pathname "/api/v1/sql/" then .getSql pathname
  else if method = "POST" && pathname = "/api/v1/sql" then .postSql
  else if method = "POST" && pathname = "/api/v1/seed" then .postSeed
  else if method = "GET" && pathname = "/" then .home
  else .notFound

/-- An occurrence of the lower-case ASCII word `kw` in `s` as a whole word,
case-insensitively, written directly from the spec wording: `s` splits as
`pre ++ mid ++ post` where `mid` is a case variant of `kw` and both edges
are word boundaries. -/
def occursAsWord (kw s : String) : Prop :=
  ∃ pre mid post, s.data = pre ++ mid ++ post
    ∧ mid.map lowerChar = kw.data
    ∧ noWordEdge pre.getLast? = true
    ∧ noWordEdge post.head? = true

example : routeOf "GET" "/" = .home := by decide
example : routeOf "DELETE" "/api/v1/sql" = .notFound := by decide
example : routeOf "GET" "/api/v1/sql/select%201" = .getSql "/api/v1/sql/select%201" := by decide
example : seedSql = "INSERT INTO patient (name, dateOfBirth) VALUES (?, ?), (?, ?), (?, ?), (?, ?);" := by decide
example : (handleSeed ⟨[("patient", ⟨[], 0⟩)]⟩).1
    = ⟨200, .okSeed "Database seeded successfully." 4⟩ := by decide

/-! Helper lemmas about the character classes and the word scanner. -/

lemma jsSpace_not_letter {c : Char} (h : isJsSpace c = true) :
    ¬(65 ≤ c.toNat ∧ c.toNat ≤ 90) ∧ ¬(97 ≤ c.toNat ∧ c.toNat ≤ 122) := by
  simp only [isJsSpace, Bool.or_eq_true, Bool.and_eq_true, decide_eq_true_eq] at h
  omega

lemma lowerChar_of_space {c : Char} (h : isJsSpace c = true) : lowerChar c = c := by
  have h2 := (jsSpace_not_letter h).1
  simp only [lowerChar, Bool.and_eq_true, decide_eq_true_eq]
  split
  · omega
  · rfl

lemma char_ne_of_toNat_ne {k c : Char} (h : k.toNat ≠ c.toNat) : k ≠ c := by
  intro he
  exact h (by rw [he])

lemma startsWithCI_space_head {k : Char} {ks : List Char} {c : Char} {cs : List Char}
    (hk1 : 97 ≤ k.toNat) (hk2 : k.toNat ≤ 122) (hc : isJsSpace c = true) :
    startsWithCI (k :: ks) (c :: cs) = false := by
  have hne : k ≠ lowerChar c := by
    rw [lowerChar_of_space hc]
    have := (jsSpace_not_letter hc).2
    exact char_ne_of_toNat_ne (by omega)
  simp [startsWithCI, hne]

lemma containsWordAux_all_space {k : Char} {ks : List Char}
    (hk1 : 97 ≤ k.toNat) (hk2 : k.toNat ≤ 122) :
    ∀ (l : List Char) (prev : Bool), l.all isJsSpace = true →
      containsWordAux (k :: ks) prev l = false := by
  intro l
  induction l with
  | nil => intro prev _; rfl
  | cons c cs ih =>
    intro prev hall
    simp only [List.all_cons, Bool.and_eq_true] at hall
    have hw : wordAtHead (k :: ks) (c :: cs) = false := by
      simp [wordAtHead, startsWithCI_space_head hk1 hk2 hall.1]
    have step : containsWordAux (k :: ks) prev (c :: cs)
        = containsWordAux (k :: ks) (isWordChar c) cs := by
      simp [containsWordAux, hw]
    rw [step]
    exact ih (isWordChar c) hall.2

lemma isForbidden_all_space {t : String} (h : t.data.all isJsSpace = true) :
    isForbidden t = false := by
  simp only [isForbidden, denylist, containsWord, List.any_cons, List.any_nil,
    Bool.or_eq_false_iff]
  refine ⟨?_, ?_, ?_, ?_, ?_, ?_, ?_, ?_, ?_, ?_, trivial⟩ <;>
    exact containsWordAux_all_space (by decide) (by decide) t.data false h

lemma dropWhile_space_nil {l : List Char} (h : l.all isJsSpace = true) :
    l.dropWhile isJsSpace = [] := by
  rw [List.dropWhile_eq_nil_iff]
  intro x hx
  exact (List.all_eq_true.mp h) x hx

lemma isSelect_all_space {t : String} (h : t.data.all isJsSpace = true) :
    isSelect t = false := by
  simp [isSelect, dropWhile_space_nil h, wordAtHead, startsWithCI]

lemma isInsert_all_space {t : String} (h : t.data.all isJsSpace = true) :
    isInsert t = false := by
  simp [isInsert, dropWhile_space_nil h, wordAtHead, startsWithCI]

lemma not_all_space_of_scan {k : Char} {ks : List Char}
    (hk1 : 97 ≤ k.toNat) (hk2 : k.toNat ≤ 122) :
    ∀ (l : List Char) (prev : Bool), containsWordAux (k :: ks) prev l = true →
      l.all isJsSpace = false := by
  intro l prev h
  by_contra hall
  rw [Bool.not_eq_false] at hall
  rw [containsWordAux_all_space hk1 hk2 l prev hall] at h
  exact Bool.false_ne_true h

lemma isForbidden_not_blank {t : String} (h : isForbidden t = true) :
    t.data.all isJsSpace = false := by
  simp only [isForbidden, denylist, List.any_cons, List.any_nil, Bool.or_eq_true,
    containsWord] at h
  rcases h with h | h | h | h | h | h | h | h | h | h | h
  all_goals first
    | exact not_all_space_of_scan (by decide) (by decide) t.data false h
    | exact absurd h Bool.false_ne_true

lemma startsWithCI_map_lower :
    ∀ (mid post : List Char), startsWithCI (mid.map lowerChar) (mid ++ post) = true := by
  intro mid post
  induction mid with
  | nil => rfl
  | cons c cs ih => simp [startsWithCI, ih]

lemma wordAtHead_of_parts {kw : List Char} {mid post : List Char}
    (hmid : mid.map lowerChar = kw) (hpost : noWordEdge post.head? = true) :
    wordAtHead kw (mid ++ post) = true := by
  have hlen : kw.length = mid.length := by rw [← hmid, List.length_map]
  simp only [wordAtHead, Bool.and_eq_true]
  constructor
  · rw [← hmid]; exact startsWithCI_map_lower mid post
  · rw [hlen, List.drop_left]; exact hpost

lemma containsWordAux_complete {kw : List Char} :
    ∀ (pre : List Char) (prev : Bool) (rest : List Char),
      wordAtHead kw rest = true → rest ≠ [] →
      ((pre = [] ∧ prev = false) ∨ (∃ c, pre.getLast? = some c ∧ isWordChar c = false)) →
      containsWordAux kw prev (pre ++ rest) = true := by
  intro pre
  induction pre with
  | nil =>
    intro prev rest hword hne hedge
    rcases hedge with ⟨_, hprev⟩ | ⟨c, hc, _⟩
    · subst hprev
      cases rest with
      | nil => exact absurd rfl hne
      | cons r rs => simp [containsWordAux, hword]
    · simp at hc
  | cons p ps ih =>
    intro prev rest hword hne hedge
    have htail : containsWordAux kw (isWordChar p) (ps ++ rest) = true := by
      apply ih (isWordChar p) rest hword hne
      rcases hedge with ⟨hpre, _⟩ | ⟨c, hc, hcw⟩
      · exact absurd hpre (by simp)
      · cases ps with
        | nil =>
          left
          refine ⟨rfl, ?_⟩
          simp only [List.getLast?_singleton, Option.some.injEq] at hc
          rw [hc]; exact hcw
        | cons q qs =>
          right
          rw [List.getLast?_cons_cons] at hc
          exact ⟨c, hc, hcw⟩
    show containsWordAux kw prev (p :: (ps ++ rest)) = true
    rw [containsWordAux]
    split
    · rfl
    · exact htail

lemma containsWord_of_occurs {kw t : String} (hne : kw.data ≠ [])
    (h : occursAsWord kw t) : containsWord kw t = true := by
  obtain ⟨pre, mid, post, hsplit, hmid, hpre, hpost⟩ := h
  have hmidne : mid ≠ [] := by
    intro he
    rw [he] at hmid
    exact hne (by rw [← hmid]; rfl)
  have hrestne : mid ++ post ≠ [] := by
    intro he
    exact hmidne (List.append_eq_nil.mp he).1
  have hword : wordAtHead kw.data (mid ++ post) = true := wordAtHead_of_parts hmid hpost
  have hedge : (pre = [] ∧ false = false) ∨
      (∃ c, pre.getLast? = some c ∧ isWordChar c = false) := by
    cases hl : pre.getLast? with
    | none =>
      left
      exact ⟨List.getLast?_eq_none_iff.mp hl, rfl⟩
    | some c =>
      right
      refine ⟨c, rfl, ?_⟩
      rw [hl] at hpre
      simpa [noWordEdge] using hpre
  rw [containsWord, hsplit, List.append_assoc]
  exact containsWordAux_complete pre false (mid ++ post) hword hrestne hedge

/-! Inversion lemmas for the handler check chains. -/

lemma getChecks_exec_inv {t sql : String} (h : getChecks t = .execSelect sql) :
    t = sql ∧ isForbidden t = false ∧ isSelect t = true ∧ touchesPatient t = true := by
  rw [getChecks] at h
  split at h
  · exact absurd h (by simp)
  · split at h
    · exact absurd h (by simp)
    · split at h
      · exact absurd h (by simp)
      · rename_i h1 h2 h3
        cases h
        refine ⟨rfl, ?_, ?_, ?_⟩
        · exact Bool.not_eq_true _ ▸ (by simpa using h1)
        · simpa using h2
        · simpa using h3

lemma handleGetSql_exec_inv {p sql : String} (h : handleGetSql p = .execSelect sql) :
    isForbidden sql = false ∧ isSelect sql = true ∧ touchesPatient sql = true := by
  rw [handleGetSql] at h
  split at h
  · exact absurd h (by simp)
  · split at h
    · exact absurd h (by simp)
    · obtain ⟨heq, h2, h3, h4⟩ := getChecks_exec_inv h
      rw [← heq]
      exact ⟨h2, h3, h4⟩

lemma handlePostSql_exec_inv {q sql : String} (h : handlePostSql q = .execInsert sql) :
    q = sql ∧ isForbidden q = false ∧ isInsert q = true ∧ touchesPatient q = true := by
  rw [handlePostSql] at h
  split at h
  · exact absurd h (by simp)
  · split at h
    · exact absurd h (by simp)
    · split at h
      · exact absurd h (by simp)
      · split at h
        · exact absurd h (by simp)
        · rename_i h1 h2 h3 h4
          cases h
          refine ⟨rfl, ?_, ?_, ?_⟩
          · simpa using h2
          · simpa using h3
          · simpa using h4

/-! Store lemmas for bootstrap and seed. -/

lemma countTable_pos_of_hasTable {s : Store} {n : String} (h : hasTable s n = true) :
    1 ≤ countTable s n := by
  rw [hasTable, List.any_eq_true] at h
  obtain ⟨p, hp, hpn⟩ := h
  have : p ∈ s.tables.filter (fun q => q.1 == n) := List.mem_filter.mpr ⟨hp, hpn⟩
  have : 0 < (s.tables.filter (fun q => q.1 == n)).length := List.length_pos.mpr
    (fun he => by rw [he] at this; exact absurd this (List.not_mem_nil p))
  exact this

lemma countTable_zero_of_not_hasTable {s : Store} {n : String} (h : hasTable s n = false) :
    countTable s n = 0 := by
  rw [hasTable] at h
  rw [countTable, List.length_eq_zero, List.filter_eq_nil_iff]
  intro p hp
  intro hpn
  rw [List.any_eq_false] at h
  exact absurd hpn (h p hp)

lemma hasTable_append_patient (l : List (String × Table)) (t : Table) :
    hasTable ⟨l ++ [("patient", t)]⟩ "patient" = true := by
  rw [hasTable, List.any_append]
  simp

lemma countTable_append_patient (l : List (String × Table)) (t : Table) :
    countTable ⟨l ++ [("patient", t)]⟩ "patient"
      = countTable ⟨l⟩ "patient" + 1 := by
  rw [countTable, countTable, List.filter_append]
  simp

lemma getTable_setTable_aux (n : String) (t2 : Table) :
    ∀ (l : List (String × Table)) (p0 : String × Table),
      l.find? (fun p => p.1 == n) = some p0 →
      (l.map (fun p => if p.1 == n then (p.1, t2) else p)).find? (fun p => p.1 == n)
        = some (p0.1, t2) := by
  intro l
  induction l with
  | nil => intro p0 h; simp at h
  | cons q qs ih =>
    intro p0 h
    by_cases hq : (q.1 == n) = true
    · simp only [List.find?, hq] at h
      cases h
      simp only [List.map_cons, if_pos hq]
      simp [List.find?, hq]
    · have hq2 : (q.1 == n) = false := by simpa using hq
      simp only [List.find?, hq2] at h
      simp only [List.map_cons, if_neg hq]
      simp only [List.find?, hq2]
      exact ih p0 h

lemma getTable_setTable {s : Store} {n : String} {t0 : Table} (t2 : Table)
    (h : getTable s n = some t0) :
    getTable (setTable s n t2) n = some t2 := by
  rw [getTable, Option.map_eq_some'] at h
  obtain ⟨p0, hp0, _⟩ := h
  rw [getTable, setTable]
  rw [getTable_setTable_aux n t2 s.tables p0 hp0]
  rfl

/-- C1: every statement text containing one of the ten denylist keywords
(update, delete, drop, alter, truncate, grant, revoke, attach, detach,
pragma) as a whole word, matched case-insensitively, classifies as
Forbidden, regardless of declared intent and of the table referenced. -/
theorem denylist_word_forbidden (text : String) (i : Intent) (kw : String)
    (hmem : kw ∈ denylist) (hocc : occursAsWord kw text) :
    classify text i = .Forbidden := by
  have hne : kw.data ≠ [] := by
    simp only [denylist, List.mem_cons, List.not_mem_nil, or_false] at hmem
    rcases hmem with rfl | rfl | rfl | rfl | rfl | rfl | rfl | rfl | rfl | rfl <;> decide
  have hf : isForbidden text = true := by
    rw [isForbidden, List.any_eq_true]
    exact ⟨kw, hmem, containsWord_of_occurs hne hocc⟩
  simp [classify, hf]

/-- C1 witness: a read-intent SELECT that smuggles an upper-case DROP after
a space classifies as Forbidden. -/
theorem denylist_word_forbidden_witness :
    classify "select x from patient where DROP" .read = .Forbidden := by
  apply denylist_word_forbidden "select x from patient where DROP" .read "drop"
  · decide
  · exact ⟨"select x from patient where ".data, "DROP".data, [],
      by decide, by decide, by decide, by decide⟩

/-- C2: a statement is handed to runSelect by the GET handler, or to
runInsert by the POST handler, only when it has passed all three checks,
i.e. classifies as Approved on its channel; rejected statements never reach
the adapter. -/
theorem approved_reaches_adapter :
    (∀ p sql, handleGetSql p = .execSelect sql → classify sql .read = .Approved)
    ∧ (∀ q sql, handlePostSql q = .execInsert sql → classify sql .write = .Approved) := by
  constructor
  · intro p sql h
    obtain ⟨h1, h2, h3⟩ := handleGetSql_exec_inv h
    simp [classify, intentKeywordOk, h1, h2, h3]
  · intro q sql h
    obtain ⟨heq, h1, h2, h3⟩ := handlePostSql_exec_inv h
    subst heq
    simp [classify, intentKeywordOk, h1, h2, h3]

/-- C2 witness: the decoded statement the GET handler passes to runSelect on
a concrete request classifies as Approved. -/
theorem approved_reaches_adapter_witness :
    classify "select * from patient" .read = .Approved :=
  approved_reaches_adapter.1 "/api/v1/sql/select%20*%20from%20patient"
    "select * from patient" (by decide)

/-- C3: the forbidden-keyword check runs first and wins: any text with a
denylist keyword classifies Forbidden (never WrongIntent or OutOfScope) and
both handler check chains answer 403 Forbidden for it. -/
theorem denylist_priority (t : String) (i : Intent) (h : isForbidden t = true) :
    classify t i = .Forbidden
    ∧ getChecks t = .respond 403 "Forbidden statement."
    ∧ handlePostSql t = .respond 403 "Forbidden statement." := by
  refine ⟨by simp [classify, h], by simp [getChecks, h], ?_⟩
  rw [handlePostSql, isForbidden_not_blank h]
  simp [h]

/-- C3 witness: a SELECT-shaped text containing the keyword update is
Forbidden on the read channel, not WrongIntent or OutOfScope. -/
theorem denylist_priority_witness :
    classify "select name from patient where update" .read = .Forbidden
    ∧ getChecks "select name from patient where update"
      = .respond 403 "Forbidden statement."
    ∧ handlePostSql "select name from patient where update"
      = .respond 403 "Forbidden statement." :=
  denylist_priority "select name from patient where update" .read (by decide)

/-- C4: GET /api/v1/sql/drop%20table%20patient answers 403 with the
Forbidden statement error, and the store is returned unchanged: no
statement is executed. -/
theorem forbidden_get_store_unchanged (execRows : Store → String → List Row)
    (s : Store) :
    runGetStore execRows s "/api/v1/sql/drop%20table%20patient"
      = (⟨403, .err "Forbidden statement."⟩, s) := by
  have h : handleGetSql "/api/v1/sql/drop%20table%20patient"
      = .respond 403 "Forbidden statement." := by decide
  rw [runGetStore, h]

/-- C5: for every write statement the POST handler approves, the 200
response reports affectedRows equal to the changes count of the store
report, and insertId is non-null exactly when the store assigned a
non-zero auto-increment key, in which case it is that key. -/
theorem write_report_normalized (exec : String → RunResult) (q sql : String)
    (h : handlePostSql q = .execInsert sql) :
    runPost exec q = ⟨200, .okInsert (normalizeInsert (exec sql))⟩
    ∧ (normalizeInsert (exec sql)).affectedRows = (exec sql).changes
    ∧ ((normalizeInsert (exec sql)).insertId ≠ none ↔ (exec sql).lastID ≠ 0)
    ∧ ((exec sql).lastID ≠ 0 →
        (normalizeInsert (exec sql)).insertId = some ((exec sql).lastID)) := by
  refine ⟨by rw [runPost, h], ?_, ?_, ?_⟩
  · simp only [normalizeInsert]
    split
    · omega
    · rfl
  · simp only [normalizeInsert]
    split
    · rename_i h0; simp [h0]
    · rename_i h0; simp [h0]
  · intro hne
    simp [normalizeInsert, hne]

/-- C5 witness: a concrete approved INSERT with a store report of one
changed row and last key 7 produces the 200 body with affectedRows 1 and
insertId 7. -/
theorem write_report_normalized_witness :
    runPost (fun _ => ⟨1, 7⟩) "insert into patient (name) values (x)"
      = ⟨200, .okInsert ⟨1, some 7⟩⟩ :=
  (write_report_normalized (fun _ => ⟨1, 7⟩)
    "insert into patient (name) values (x)"
    "insert into patient (name) values (x)" (by decide)).1

/-- C6 counterexample: on the write channel a whitespace-only text is
rejected by the blank-field check with the missing-field error, which is a
different response from the WrongIntent client error the claim asserts. -/
theorem whitespace_post_counterexample :
    handlePostSql " " = .respond 400 "Missing \x27query\x27 field."
    ∧ PAction.respond 400 "Missing \x27query\x27 field."
      ≠ PAction.respond 400 "POST only allows INSERT." :=
  ⟨by decide, by decide⟩

/-- C6 amended: empty or whitespace-only text classifies WrongIntent on both
channels; the read-channel check chain rejects it with the WrongIntent
client error, while the write-channel handler rejects it earlier with the
missing-field error, before classification. -/
theorem whitespace_wrong_intent (t : String) (h : t.data.all isJsSpace = true) :
    classify t .read = .WrongIntent ∧ classify t .write = .WrongIntent
    ∧ getChecks t = .respond 400 "GET only allows SELECT."
    ∧ handlePostSql t = .respond 400 "Missing \x27query\x27 field." := by
  have hf := isForbidden_all_space h
  have hs := isSelect_all_space h
  have hi := isInsert_all_space h
  refine ⟨?_, ?_, ?_, ?_⟩
  · simp [classify, intentKeywordOk, hf, hs]
  · simp [classify, intentKeywordOk, hf, hi]
  · simp [getChecks, hf, hs]
  · rw [handlePostSql, h]
    simp

/-- C6 amended witness at the one-space text. -/
theorem whitespace_wrong_intent_witness :
    classify " " .read = .WrongIntent ∧ classify " " .write = .WrongIntent
    ∧ getChecks " " = .respond 400 "GET only allows SELECT."
    ∧ handlePostSql " " = .respond 400 "Missing \x27query\x27 field." :=
  whitespace_wrong_intent " " (by decide)

/-- C7 counterexample: GET / is not among the documented transport surface
entries (not OPTIONS, not a GET /api/v1/sql/ path, not POST /api/v1/sql,
not POST /api/v1/seed), yet the router answers the landing text, not the
not-found response. -/
theorem router_root_counterexample :
    routeOf "GET" "/" = .home ∧ Route.home ≠ Route.notFound
    ∧ ("GET" : String) ≠ "OPTIONS"
    ∧ jsStartsWith "/" "/api/v1/sql/" = false
    ∧ ("/" : String) ≠ "/api/v1/sql"
    ∧ ("/" : String) ≠ "/api/v1/seed" := by
  refine ⟨by decide, by decide, by decide, by decide, by decide, by decide⟩

/-- C7 amended: for every method and pathname outside the documented surface
and outside the GET / landing route, the router produces the not-found
response. -/
theorem router_not_found (m p : String)
    (h1 : m ≠ "OPTIONS")
    (h2 : ¬(m = "GET" ∧ jsStartsWith p "/api/v1/sql/" = true))
    (h3 : ¬(m = "POST" ∧ p = "/api/v1/sql"))
    (h4 : ¬(m = "POST" ∧ p = "/api/v1/seed"))
    (h5 : ¬(m = "GET" ∧ p = "/")) :
    routeOf m p = .notFound := by
  rw [routeOf]
  split_ifs with g1 g2 g3 g4 g5
  · exact absurd g1 h1
  · exact absurd (by simpa using g2) h2
  · exact absurd (by simpa using g3) h3
  · exact absurd (by simpa using g4) h4
  · exact absurd (by simpa using g5) h5
  · rfl

/-- C7 amended witness: a PUT to an undocumented path routes to not-found. -/
theorem router_not_found_witness : routeOf "PUT" "/api/v1/other" = .notFound :=
  router_not_found "PUT" "/api/v1/other"
    (by decide) (by decide) (by decide) (by decide) (by decide)

/-- C8: the create-table-if-absent bootstrap is idempotent, never errors
(it is total), leaves at most one patient table, and after
ensureTableExists the patient table always exists, so approved execution
cannot fail for missing schema. -/
theorem bootstrap_idempotent (s : Store) :
    bootstrap (bootstrap s) = bootstrap s
    ∧ hasTable (bootstrap s) "patient" = true
    ∧ countTable (bootstrap s) "patient" = max (countTable s "patient") 1
    ∧ ensureTableExists (bootstrap s) = bootstrap s
    ∧ hasTable (ensureTableExists s) "patient" = true := by
  by_cases h : hasTable s "patient" = true
  · have hb : bootstrap s = s := by
      rw [bootstrap, createPatientIfAbsent, if_pos h]
    have hcnt := countTable_pos_of_hasTable h
    refine ⟨by rw [hb, hb], by rw [hb]; exact h, by rw [hb]; omega, ?_, ?_⟩
    · rw [hb]
      exact hb
    · show hasTable (bootstrap s) "patient" = true
      rw [hb]
      exact h
  · have hb : bootstrap s = ⟨s.tables ++ [("patient", ⟨[], 0⟩)]⟩ := by
      rw [bootstrap, createPatientIfAbsent, if_neg h]
    have h2 : hasTable s "patient" = false := by simpa using h
    have hafter : hasTable (bootstrap s) "patient" = true := by
      rw [hb]
      exact hasTable_append_patient s.tables ⟨[], 0⟩
    have hid : bootstrap (bootstrap s) = bootstrap s := by
      show createPatientIfAbsent (bootstrap s) = bootstrap s
      rw [createPatientIfAbsent, if_pos hafter]
    have hc0 : countTable s "patient" = 0 := countTable_zero_of_not_hasTable h2
    have hc1 : countTable (bootstrap s) "patient" = countTable s "patient" + 1 := by
      rw [hb]
      exact countTable_append_patient s.tables ⟨[], 0⟩
    refine ⟨hid, hafter, by omega, hid, ?_⟩
    show hasTable (bootstrap s) "patient" = true
    exact hafter

/-- C9: on a store whose patient table is empty, the seed operation answers
200 with inserted 4, the table afterwards holds exactly the four fixed
sample records in order, and the statement it runs is the single fixed
bulk insert. -/
theorem seed_fills_table (s : Store) (k : Nat)
    (h : getTable s "patient" = some ⟨[], k⟩) :
    handleSeed s = (⟨200, .okSeed "Database seeded successfully." 4⟩,
      setTable s "patient"
        ⟨[⟨k+1, "Sara Brown", some "1901-01-01 00:00:00"⟩,
          ⟨k+2, "John Smith", some "1941-01-01 00:00:00"⟩,
          ⟨k+3, "Jack Ma", some "1961-01-30 00:00:00"⟩,
          ⟨k+4, "Elon Musk", some "1999-01-01 00:00:00"⟩], k+4⟩)
    ∧ (getTable (handleSeed s).2 "patient").map Table.rows = some
        [⟨k+1, "Sara Brown", some "1901-01-01 00:00:00"⟩,
         ⟨k+2, "John Smith", some "1941-01-01 00:00:00"⟩,
         ⟨k+3, "Jack Ma", some "1961-01-30 00:00:00"⟩,
         ⟨k+4, "Elon Musk", some "1999-01-01 00:00:00"⟩]
    ∧ seedSql
      = "INSERT INTO patient (name, dateOfBirth) VALUES (?, ?), (?, ?), (?, ?), (?, ?);" := by
  have hst : seedStore s = some (setTable s "patient"
      ⟨[⟨k+1, "Sara Brown", some "1901-01-01 00:00:00"⟩,
        ⟨k+2, "John Smith", some "1941-01-01 00:00:00"⟩,
        ⟨k+3, "Jack Ma", some "1961-01-30 00:00:00"⟩,
        ⟨k+4, "Elon Musk", some "1999-01-01 00:00:00"⟩], k+4⟩, 4) := by
    rw [seedStore, h]
    rfl
  have hresp : handleSeed s = (⟨200, .okSeed "Database seeded successfully." 4⟩,
      setTable s "patient"
        ⟨[⟨k+1, "Sara Brown", some "1901-01-01 00:00:00"⟩,
          ⟨k+2, "John Smith", some "1941-01-01 00:00:00"⟩,
          ⟨k+3, "Jack Ma", some "1961-01-30 00:00:00"⟩,
          ⟨k+4, "Elon Musk", some "1999-01-01 00:00:00"⟩], k+4⟩) := by
    rw [handleSeed, hst]
    rfl
  refine ⟨hresp, ?_, by decide⟩
  rw [hresp]
  rw [getTable_setTable _ h]
  rfl

/-- C9 witness on the concrete store holding one empty patient table. -/
theorem seed_fills_table_witness :
    handleSeed ⟨[("patient", ⟨[], 0⟩)]⟩
      = (⟨200, .okSeed "Database seeded successfully." 4⟩,
        setTable ⟨[("patient", ⟨[], 0⟩)]⟩ "patient"
          ⟨[⟨1, "Sara Brown", some "1901-01-01 00:00:00"⟩,
            ⟨2, "John Smith", some "1941-01-01 00:00:00"⟩,
            ⟨3, "Jack Ma", some "1961-01-30 00:00:00"⟩,
            ⟨4, "Elon Musk", some "1999-01-01 00:00:00"⟩], 4⟩)
    ∧ (getTable (handleSeed ⟨[("patient", ⟨[], 0⟩)]⟩).2 "patient").map Table.rows
      = some [⟨1, "Sara Brown", some "1901-01-01 00:00:00"⟩,
          ⟨2, "John Smith", some "1941-01-01 00:00:00"⟩,
          ⟨3, "Jack Ma", some "1961-01-30 00:00:00"⟩,
          ⟨4, "Elon Musk", some "1999-01-01 00:00:00"⟩]
    ∧ seedSql
      = "INSERT INTO patient (name, dateOfBirth) VALUES (?, ?), (?, ?), (?, ?), (?, ?);" :=
  seed_fills_table ⟨[("patient", ⟨[], 0⟩)]⟩ 0 (by decide)

/-- C10: classification is a pure function of the statement text:
it is fully determined by the four predicate values, and the accept
or reject status of a request does not depend on the store contents or on
what the adapter returns. -/
theorem classification_determined :
    (∀ t1 t2 i, isForbidden t1 = isForbidden t2 → isSelect t1 = isSelect t2 →
      isInsert t1 = isInsert t2 → touchesPatient t1 = touchesPatient t2 →
      classify t1 i = classify t2 i)
    ∧ (∀ ex1 ex2 q, (runPost ex1 q).status = (runPost ex2 q).status)
    ∧ (∀ ex1 ex2 s1 s2 p,
        (runGetStore ex1 s1 p).1.status = (runGetStore ex2 s2 p).1.status) := by
  refine ⟨?_, ?_, ?_⟩
  · intro t1 t2 i h1 h2 h3 h4
    cases i <;> simp [classify, intentKeywordOk, h1, h2, h3, h4]
  · intro ex1 ex2 q
    cases h : handlePostSql q <;> simp [runPost, h]
  · intro ex1 ex2 s1 s2 p
    cases h : handleGetSql p <;> simp [runGetStore, h]

/-- C10 witness: two case variants of the same text with identical predicate
values classify identically. -/
theorem classification_determined_witness :
    classify "select 1" .read = classify "SELECT 1" .read :=
  classification_determined.1 "select 1" "SELECT 1" .read
    (by decide) (by decide) (by decide) (by decide)

example : isForbidden "drop table patient" = true := by decide
example : isForbidden "select * from patient" = false := by decide
example : isForbidden "select updated from patient" = false := by decide
example : isForbidden "SELECT 1 WHERE UPDATE" = true := by decide
example : isSelect "   select * from patient" = true := by decide
example : isSelect "selection" = false := by decide
example : isInsert "insert into patient values (1)" = true := by decide
example : touchesPatient "select * from patients" = false := by decide
example : touchesPatient "select * from PATIENT" = true := by decide
example : classify "select * from patient" .read = .Approved := by decide
example : classify "select * from other_table" .read = .OutOfScope := by decide
example : classify "drop table patient" .read = .Forbidden := by decide
example : classify "" .write = .WrongIntent := by decide
